import Mathlib

/-!
Shallow embedding of the particle simulation engine of `src/particle-layer.ts`
(deck.gl `ParticleLayer`).  JavaScript numbers are modelled by exact rationals
(`ℚ`); the two viewport formulas that raise 2 to a fractional power are
modelled over the reals with `Real.rpow`.  GPU buffers are modelled as total
functions `Nat → Pos`; only the slots below `numInstances` are meaningful.
The external field-advection kernel (the transform-feedback vertex shader) is
an opaque parameter `K : Nat → Pos → Pos` giving, per vertex index, the output
position written for a given input position.
-/

namespace DeckParticle

/-- A 3-component particle position (`float32x3` in the buffers). -/
structure Pos where
  x : ℚ
  y : ℚ
  z : ℚ
deriving DecidableEq, Repr

/-- The sentinel/origin position `(0,0,0)`. -/
def Pos.zero : Pos := ⟨0, 0, 0⟩

/-- A geographic bounding box `[west, south, east, north]` (`GeoJSON.BBox`,
indices 0..3 of the array in the source). -/
structure BBox where
  west : ℚ
  south : ℚ
  east : ℚ
  north : ℚ
deriving DecidableEq, Repr

/-- JavaScript number truncation toward zero, as used by the `%` operator:
`trunc q` is `⌊q⌋` for nonnegative `q` and `⌈q⌉` for negative `q`. -/
def jsTrunc (q : ℚ) : ℤ :=
  if 0 ≤ q then ⌊q⌋ else ⌈q⌉

/-- The JavaScript remainder operator `x % y` (sign follows the dividend):
`x - y * trunc (x / y)`. -/
def jsRem (x y : ℚ) : ℚ :=
  x - y * jsTrunc (x / y)

/-- `modulo` of `particle-layer.ts` (lines 470-472): true modulo rather than
remainder, computed as `((x % y) + y) % y`. -/
def modulo (x y : ℚ) : ℚ :=
  jsRem (jsRem x y + y) y

/-- `wrapLongitude` of `particle-layer.ts` (lines 474-483): wrap `lng` into
`[-180, 180)`; when `minLng` is supplied and the wrapped value falls below it,
add 360. -/
def wrapLongitude (lng : ℚ) (minLng : Option ℚ) : ℚ :=
  let wrappedLng := modulo (lng + 180) 360 - 180
  match minLng with
  | some m => if wrappedLng < m then wrappedLng + 360 else wrappedLng
  | none => wrappedLng

/-- `wrapBounds` of `particle-layer.ts` (lines 485-496): wrap longitudes when
the span is below 360 (forcing the whole globe otherwise) and clamp
latitudes. -/
def wrapBounds (b : BBox) : BBox :=
  let minLng := if b.east - b.west < 360 then wrapLongitude b.west none else -180
  let maxLng := if b.east - b.west < 360 then wrapLongitude b.east (some minLng) else 180
  let minLat := max b.south (-90)
  let maxLat := min b.north 90
  ⟨minLng, minLat, maxLng, maxLat⟩

/- Arithmetic facts about `jsRem` and `modulo`. -/

lemma jsRem_of_nonneg_div (x y : ℚ) (hy : y ≠ 0) (h : 0 ≤ x / y) :
    jsRem x y = y * Int.fract (x / y) := by
  unfold jsRem jsTrunc
  rw [if_pos h, Int.fract]
  field_simp

lemma jsRem_of_neg_div (x y : ℚ) (hy : y ≠ 0) (h : x / y < 0) :
    jsRem x y = -(y * Int.fract (-(x / y))) := by
  unfold jsRem jsTrunc
  rw [if_neg (not_le.mpr h), Int.fract, Int.floor_neg]
  push_cast
  field_simp
  ring

lemma jsRem_neg_y_le (x y : ℚ) (hy : 0 < y) : -y ≤ jsRem x y := by
  rcases le_or_lt 0 (x / y) with h | h
  · rw [jsRem_of_nonneg_div x y hy.ne' h]
    have h1 : 0 ≤ y * Int.fract (x / y) := mul_nonneg hy.le (Int.fract_nonneg _)
    linarith
  · rw [jsRem_of_neg_div x y hy.ne' h]
    have h1 : Int.fract (-(x / y)) < 1 := Int.fract_lt_one _
    have h2 : y * Int.fract (-(x / y)) ≤ y * 1 :=
      mul_le_mul_of_nonneg_left h1.le hy.le
    linarith

lemma modulo_nonneg_lt (x y : ℚ) (hy : 0 < y) :
    0 ≤ modulo x y ∧ modulo x y < y := by
  unfold modulo
  have hr : -y ≤ jsRem x y := jsRem_neg_y_le x y hy
  have hnum : 0 ≤ jsRem x y + y := by linarith
  have hdiv : 0 ≤ (jsRem x y + y) / y := div_nonneg hnum hy.le
  rw [jsRem_of_nonneg_div _ y hy.ne' hdiv]
  constructor
  · exact mul_nonneg hy.le (Int.fract_nonneg _)
  · have h1 : Int.fract ((jsRem x y + y) / y) < 1 := Int.fract_lt_one _
    calc y * Int.fract ((jsRem x y + y) / y) < y * 1 :=
          (mul_lt_mul_left hy).mpr h1
    _ = y := mul_one y

lemma modulo_eq_sub_int (x y : ℚ) :
    ∃ n : ℤ, modulo x y = x - y * n := by
  refine ⟨jsTrunc (x / y) - 1 + jsTrunc ((jsRem x y + y) / y), ?_⟩
  unfold modulo jsRem
  push_cast
  ring

/-- `modulo x y` with `0 < y` is the mathematical floor-modulo
`x - y * ⌊x / y⌋` (correct also for negative `x`). -/
lemma modulo_eq_floor_mod (x y : ℚ) (hy : 0 < y) :
    modulo x y = x - y * ⌊x / y⌋ := by
  obtain ⟨n, hn⟩ := modulo_eq_sub_int x y
  obtain ⟨h0, h1⟩ := modulo_nonneg_lt x y hy
  rw [hn] at h0 h1 ⊢
  have hfloor : ⌊x / y⌋ = n := by
    rw [Int.floor_eq_iff]
    constructor
    · rw [le_div_iff₀ hy]
      nlinarith
    · rw [div_lt_iff₀ hy]
      nlinarith
  rw [hfloor]

lemma wrapLongitude_none_def (lng : ℚ) :
    wrapLongitude lng none = modulo (lng + 180) 360 - 180 := rfl

lemma wrapLongitude_some_def (lng m : ℚ) :
    wrapLongitude lng (some m) =
      if modulo (lng + 180) 360 - 180 < m then modulo (lng + 180) 360 - 180 + 360
      else modulo (lng + 180) 360 - 180 := rfl

lemma wrapLongitude_none_mem (lng : ℚ) :
    -180 ≤ wrapLongitude lng none ∧ wrapLongitude lng none < 180 := by
  rw [wrapLongitude_none_def]
  obtain ⟨h0, h1⟩ := modulo_nonneg_lt (lng + 180) 360 (by norm_num)
  constructor <;> linarith

lemma wrapLongitude_none_eq_floor (lng : ℚ) :
    wrapLongitude lng none = ((lng + 180) - 360 * ⌊(lng + 180) / 360⌋) - 180 := by
  rw [wrapLongitude_none_def, modulo_eq_floor_mod (lng + 180) 360 (by norm_num)]

lemma wrapLongitude_some_ge (lng m : ℚ) (hm : m < 180) :
    m ≤ wrapLongitude lng (some m) := by
  rw [wrapLongitude_some_def]
  obtain ⟨h0, h1⟩ := modulo_nonneg_lt (lng + 180) 360 (by norm_num)
  split_ifs with h <;> linarith

/- Engine data model. -/

/-- The `image` prop: a URL string, a decoded texture (modelled by an opaque
numeric identity), or `null`. -/
inductive ImageProp where
  | url (s : String)
  | texture (id : Nat)
  | null
deriving DecidableEq, Repr

/-- An RGBA input color, 0-255 per channel; the alpha channel may be absent
(the source reads `color[3] ?? 255`). -/
structure InColor where
  r : ℚ
  g : ℚ
  b : ℚ
  a : Option ℚ
deriving DecidableEq, Repr

/-- A normalized RGBA color entry of the color buffer. -/
structure RGBA where
  r : ℚ
  g : ℚ
  b : ℚ
  a : ℚ
deriving DecidableEq, Repr

/-- The layer props relevant to the simulation engine. -/
structure Props where
  image : ImageProp
  imageUnscale : Option (ℚ × ℚ)
  bounds : BBox
  numParticles : Nat
  maxAge : Nat
  speedFactor : ℚ
  color : InColor
  width : ℚ
deriving DecidableEq

/-- A position buffer: slot `i` holds one `float32x3` position; only slots
below `numInstances` are meaningful. -/
def Buffer : Type := Nat → Pos

/-- The layer's simulation state (`this.state` fields used by the engine). -/
structure EngineState where
  initialized : Bool
  numInstances : Nat
  numAgedInstances : Nat
  sourcePositions : Buffer
  targetPositions : Buffer
  colors : Nat → RGBA
  widths : ℚ
  /-- vertexCount of the `BufferTransform`, fixed at construction time. -/
  transformVertexCount : Nat
  previousViewportZoom : ℚ
  previousTime : ℚ
  texture : Nat
  stepRequested : Bool

/-- The state of a fresh layer: every field of `this.state` is undefined,
hence falsy. -/
def initialEngineState : EngineState :=
  { initialized := false
    numInstances := 0
    numAgedInstances := 0
    sourcePositions := fun _ => Pos.zero
    targetPositions := fun _ => Pos.zero
    colors := fun _ => ⟨0, 0, 0, 0⟩
    widths := 0
    transformVertexCount := 0
    previousViewportZoom := 0
    previousTime := 0
    texture := 0
    stepRequested := false }

/-- One color-buffer entry (`_setupTransformFeedback`, lines 261-276): entry
`i` belongs to age cohort `floor (i / numParticles)` and every channel is
divided by 255 after the alpha ramp `(color[3] ?? 255) * (1 - age/maxAge)`. -/
def colorFor (color : InColor) (numParticles maxAge : Nat) (i : Nat) : RGBA :=
  let age : Nat := i / numParticles
  { r := color.r / 255
    g := color.g / 255
    b := color.b / 255
    a := (color.a.getD 255) * (1 - (age : ℚ) / (maxAge : ℚ)) / 255 }

/-- `_deleteTransformFeedback` (lines 408-429): destroy the buffers and the
transform and mark the state uninitialized; guarded to a no-op when already
uninitialized.  Destroyed resources are modelled by resetting the fields the
source sets to `undefined` (note the source does not unset `colors`). -/
def deleteTransformFeedback (s : EngineState) : EngineState :=
  if s.initialized = false then s
  else
    { s with
      initialized := false
      sourcePositions := fun _ => Pos.zero
      targetPositions := fun _ => Pos.zero
      transformVertexCount := 0 }

/-- `_setupTransformFeedback` (lines 237-317): tear down any previous state,
bail out when the image is still a URL string or `null`, otherwise allocate
zero-initialized position buffers, the cohort-faded color buffer and the
transform, and mark the state initialized. -/
def setupTransformFeedback (props : Props) (s : EngineState) : EngineState :=
  let s1 := if s.initialized then deleteTransformFeedback s else s
  match props.image with
  | ImageProp.url _ => s1
  | ImageProp.null => s1
  | ImageProp.texture tid =>
    let numInstances := props.numParticles * props.maxAge
    let numAgedInstances := props.numParticles * (props.maxAge - 1)
    { initialized := true
      numInstances := numInstances
      numAgedInstances := numAgedInstances
      sourcePositions := fun _ => Pos.zero
      targetPositions := fun _ => Pos.zero
      colors := colorFor props.color props.numParticles props.maxAge
      widths := props.width
      transformVertexCount := props.numParticles
      previousViewportZoom := 0
      previousTime := 0
      texture := tid
      stepRequested := s1.stepRequested }

/-- `updateState` (lines 169-195): a zero/falsy `numParticles`, `maxAge` or
`width` deallocates; a change of `image`, `numParticles`, `maxAge` or `width`
rebuilds. -/
def updateState (props oldProps : Props) (s : EngineState) : EngineState :=
  if props.numParticles = 0 ∨ props.maxAge = 0 ∨ props.width = 0 then
    deleteTransformFeedback s
  else if props.image ≠ oldProps.image ∨ props.numParticles ≠ oldProps.numParticles ∨
      props.maxAge ≠ oldProps.maxAge ∨ props.width ≠ oldProps.width then
    setupTransformFeedback props s
  else s

/-- Byte size of one buffer slot (`float32x3`). -/
def positionSizeBytes : Nat := 4 * 3

/-- The `destinationOffset` of the age-shift copy, in bytes
(`numParticles * 4 * 3`, line 377). -/
def copyDestinationOffsetBytes (numParticles : Nat) : Nat := numParticles * 4 * 3

/-- The `size` of the age-shift copy, in bytes (`numAgedInstances * 4 * 3`,
line 378). -/
def copySizeBytes (numAgedInstances : Nat) : Nat := numAgedInstances * 4 * 3

/-- `_runTransformFeedback` (lines 319-395).  `K` is the external
field-advection kernel for this tick (vertex index and input position to
output position); `numParticles` is read live from the props; `time` is the
timeline time and `zoom` the current viewport zoom.  Guards: no-op when
uninitialized or when the time has not advanced.  Then: the transform runs
the kernel over `transformVertexCount` vertices writing the target buffer's
slots `[0, transformVertexCount)`; the command encoder copies source slots
`[0, numAgedInstances)` onto target slots shifted up by one cohort
(`numParticles` slots, i.e. byte offset `copyDestinationOffsetBytes`); the
buffers swap roles; `previousViewportZoom` and `previousTime` update. -/
def runTransformFeedback (K : Nat → Pos → Pos) (numParticles : Nat)
    (time zoom : ℚ) (s : EngineState) : EngineState :=
  if s.initialized = false then s
  else if time = s.previousTime then s
  else
    let kernelOut : Buffer := fun i =>
      if i < s.transformVertexCount then K i (s.sourcePositions i)
      else s.targetPositions i
    let shifted : Buffer := fun i =>
      if numParticles ≤ i ∧ i < numParticles + s.numAgedInstances then
        s.sourcePositions (i - numParticles)
      else kernelOut i
    { s with
      sourcePositions := shifted
      targetPositions := s.sourcePositions
      previousViewportZoom := zoom
      previousTime := time }

/-- `_resetTransformFeedback` (lines 397-406): write `numInstances * 3` zero
floats over both position buffers; no-op when uninitialized. -/
def resetTransformFeedback (s : EngineState) : EngineState :=
  if s.initialized = false then s
  else
    { s with
      sourcePositions := fun i =>
        if i < s.numInstances then Pos.zero else s.sourcePositions i
      targetPositions := fun i =>
        if i < s.numInstances then Pos.zero else s.targetPositions i }

/-- `step` (lines 445-449): run the transform feedback (the redraw request has
no effect on the simulation state). -/
def step (K : Nat → Pos → Pos) (numParticles : Nat) (time zoom : ℚ)
    (s : EngineState) : EngineState :=
  runTransformFeedback K numParticles time zoom s

/-- `clear` (lines 451-455): reset the transform feedback. -/
def clear (s : EngineState) : EngineState :=
  resetTransformFeedback s

/- Animation scheduler (`requestStep`, lines 432-443). -/

/-- `FPS` (line 58). -/
def FPS : ℚ := 30

/-- A scheduler state: the engine plus the delays (in ms) of the currently
scheduled tick callbacks, in scheduling order. -/
structure SchedulerState where
  engine : EngineState
  pending : List ℚ

/-- `requestStep` (lines 432-443): no-op when a step is already requested;
otherwise set the flag and schedule one callback after `1000 / FPS` ms. -/
def requestStep (ss : SchedulerState) : SchedulerState :=
  if ss.engine.stepRequested then ss
  else
    { engine := { ss.engine with stepRequested := true }
      pending := ss.pending ++ [1000 / FPS] }

/-- Firing the earliest scheduled callback: it runs `step` and then clears
the `stepRequested` flag; nothing happens when no callback is scheduled. -/
def fireStep (K : Nat → Pos → Pos) (numParticles : Nat) (time zoom : ℚ)
    (ss : SchedulerState) : SchedulerState :=
  match ss.pending with
  | [] => ss
  | _ :: rest =>
    { engine := { step K numParticles time zoom ss.engine with stepRequested := false }
      pending := rest }

/-- At most one tick callback is ever pending, and only while the
`stepRequested` flag is set. -/
def SchedInv (ss : SchedulerState) : Prop :=
  ss.pending.length ≤ 1 ∧ (ss.engine.stepRequested = false → ss.pending = [])

/- Viewport parameter calculation (lines 343-365 and 462-464).  The
fractional powers of two are over the reals. -/

/-- The camera state read once per tick: zoom and `viewport.getBounds()`. -/
structure Viewport where
  zoom : ℚ
  bounds : BBox

/-- `getViewportBounds` (lines 462-464). -/
def getViewportBounds (viewport : Viewport) : BBox :=
  wrapBounds viewport.bounds

/-- `viewportZoomChangeFactor` (lines 345-346): `2 ** ((zPrev - z) * 4)`. -/
noncomputable def viewportZoomChangeFactor (zPrev z : ℚ) : ℝ :=
  (2 : ℝ) ^ ((((zPrev : ℝ)) - (z : ℝ)) * 4)

/-- `currentSpeedFactor` (line 349): `speedFactor / 2 ** (z + 7)`. -/
noncomputable def currentSpeedFactor (speedFactor z : ℚ) : ℝ :=
  (speedFactor : ℝ) / (2 : ℝ) ^ ((z : ℝ) + 7)

/-- The per-tick uniform block handed to the kernel (lines 354-365). -/
structure TickUniforms where
  viewportBounds : BBox
  viewportZoomChangeFactor : ℝ
  imageUnscale : ℚ × ℚ
  bounds : BBox
  numParticles : Nat
  maxAge : Nat
  speedFactor : ℝ
  time : ℚ
  seed : ℚ

open Classical in
/-- The uniform block built by `_runTransformFeedback` before the transform
runs (`moduleUniforms`, lines 354-365); the JS `|| 0` fallback on the zoom
factor is the identity on an exact real but is modelled faithfully. -/
noncomputable def tickUniforms (props : Props) (s : EngineState)
    (viewport : Viewport) (time seed : ℚ) : TickUniforms :=
  { viewportBounds := getViewportBounds viewport
    viewportZoomChangeFactor :=
      if viewportZoomChangeFactor s.previousViewportZoom viewport.zoom = 0 then 0
      else viewportZoomChangeFactor s.previousViewportZoom viewport.zoom
    imageUnscale := props.imageUnscale.getD (0, 0)
    bounds := props.bounds
    numParticles := props.numParticles
    maxAge := props.maxAge
    speedFactor := currentSpeedFactor props.speedFactor viewport.zoom
    time := time
    seed := seed }

/- Claim theorems. -/

lemma wrapBounds_west_lt (b : BBox) (h : b.east - b.west < 360) :
    (wrapBounds b).west = wrapLongitude b.west none := by
  simp [wrapBounds, h]

lemma wrapBounds_east_lt (b : BBox) (h : b.east - b.west < 360) :
    (wrapBounds b).east = wrapLongitude b.east (some (wrapLongitude b.west none)) := by
  simp [wrapBounds, h]

lemma wrapBounds_south (b : BBox) : (wrapBounds b).south = max b.south (-90) := rfl

lemma wrapBounds_north (b : BBox) : (wrapBounds b).north = min b.north 90 := rfl

/-- C3: `wrapBounds` is a pure total function on `[west, south, east, north]`:
for a span below 360 the west edge is wrapped into `[-180, 180)` by the true
floor-modulo `((lng + 180) mod 360) - 180` (correct for negative inputs) and
the east edge satisfies `east' ≥ west'`; a span of 360 or more forces
`west' = -180, east' = 180`; latitudes are clamped to `[-90, 90]` and a
degenerate box is passed through with only that clamp applied. -/
theorem wrapBounds_spec (b : BBox) :
    (b.east - b.west < 360 →
      (wrapBounds b).west = ((b.west + 180) - 360 * ⌊(b.west + 180) / 360⌋) - 180 ∧
      -180 ≤ (wrapBounds b).west ∧ (wrapBounds b).west < 180) ∧
    (wrapBounds b).west ≤ (wrapBounds b).east ∧
    (360 ≤ b.east - b.west → (wrapBounds b).west = -180 ∧ (wrapBounds b).east = 180) ∧
    (wrapBounds b).south = max b.south (-90) ∧ (wrapBounds b).north = min b.north 90 ∧
    -90 ≤ (wrapBounds b).south ∧ (wrapBounds b).north ≤ 90 := by
  have hsouth := wrapBounds_south b
  have hnorth := wrapBounds_north b
  by_cases h : b.east - b.west < 360
  · obtain ⟨hw0, hw1⟩ := wrapLongitude_none_mem b.west
    have hwest := wrapBounds_west_lt b h
    have heast := wrapBounds_east_lt b h
    refine ⟨fun _ => ⟨hwest.trans (wrapLongitude_none_eq_floor b.west),
        hwest ▸ hw0, hwest ▸ hw1⟩, ?_, fun h360 => absurd h (not_lt.mpr h360),
        hsouth, hnorth, hsouth ▸ le_max_right _ _, hnorth ▸ min_le_right _ _⟩
    rw [hwest, heast]
    exact wrapLongitude_some_ge b.east (wrapLongitude b.west none) hw1
  · have hwest : (wrapBounds b).west = -180 := by simp [wrapBounds, h]
    have heast : (wrapBounds b).east = 180 := by simp [wrapBounds, h]
    refine ⟨fun hlt => absurd hlt h, ?_, fun _ => ⟨hwest, heast⟩,
        hsouth, hnorth, hsouth ▸ le_max_right _ _, hnorth ▸ min_le_right _ _⟩
    rw [hwest, heast]
    norm_num

/-- C3 witness: the antimeridian-crossing box `[170, -10, -170, 10]` has span
below 360 and its wrapped west edge lies in `[-180, 180)` below the wrapped
east edge. -/
theorem wrapBounds_spec_witness :
    ((-170 : ℚ) - 170 < 360) ∧
    (-180 ≤ (wrapBounds ⟨170, -10, -170, 10⟩).west ∧
      (wrapBounds ⟨170, -10, -170, 10⟩).west < 180) ∧
    (wrapBounds ⟨170, -10, -170, 10⟩).west ≤ (wrapBounds ⟨170, -10, -170, 10⟩).east :=
  ⟨by norm_num, ((wrapBounds_spec ⟨170, -10, -170, 10⟩).1 (by norm_num)).2,
    (wrapBounds_spec ⟨170, -10, -170, 10⟩).2.1⟩

/- Helper lemmas about the tick. -/

lemma runTF_noop_uninit (K : Nat → Pos → Pos) (nP : Nat) (t z : ℚ)
    (s : EngineState) (hinit : s.initialized = false) :
    runTransformFeedback K nP t z s = s := by
  unfold runTransformFeedback
  rw [if_pos hinit]

lemma runTF_noop_same_time (K : Nat → Pos → Pos) (nP : Nat) (t z : ℚ)
    (s : EngineState) (ht : t = s.previousTime) :
    runTransformFeedback K nP t z s = s := by
  unfold runTransformFeedback
  by_cases h1 : s.initialized = false
  · rw [if_pos h1]
  · rw [if_neg h1, if_pos ht]

lemma runTF_run_eq (K : Nat → Pos → Pos) (nP : Nat) (t z : ℚ) (s : EngineState)
    (hinit : s.initialized = true) (ht : ¬t = s.previousTime) :
    runTransformFeedback K nP t z s =
      { s with
        sourcePositions := fun i =>
          if nP ≤ i ∧ i < nP + s.numAgedInstances then s.sourcePositions (i - nP)
          else if i < s.transformVertexCount then K i (s.sourcePositions i)
          else s.targetPositions i
        targetPositions := s.sourcePositions
        previousViewportZoom := z
        previousTime := t } := by
  unfold runTransformFeedback
  rw [hinit, if_neg (by simp), if_neg ht]

/-- C1: a completed tick on an initialized state age-shifts the trail: cohort
`k ≥ 1` slot `p` of the new source buffer is the pre-tick cohort `k-1` slot
`p` of the old source buffer, cohort 0 is exactly the kernel's output (never
touched by the copy, whose destination starts one cohort in), and the total
slot count `numInstances = numParticles * maxAge` is unchanged. -/
theorem step_age_shift (K : Nat → Pos → Pos) (nP maxAge : Nat) (t z : ℚ)
    (s : EngineState) (hinit : s.initialized = true) (ht : t ≠ s.previousTime)
    (hvc : s.transformVertexCount = nP)
    (hN : s.numInstances = nP * maxAge)
    (hA : s.numAgedInstances = nP * (maxAge - 1)) :
    (∀ k p, 1 ≤ k → k ≤ maxAge - 1 → p < nP →
      (step K nP t z s).sourcePositions (k * nP + p) =
        s.sourcePositions ((k - 1) * nP + p)) ∧
    (∀ p, p < nP →
      (step K nP t z s).sourcePositions p = K p (s.sourcePositions p)) ∧
    (step K nP t z s).numInstances = nP * maxAge ∧
    (step K nP t z s).numInstances = s.numInstances := by
  have hrun := runTF_run_eq K nP t z s hinit ht
  refine ⟨?_, ?_, ?_, ?_⟩
  · intro k p hk1 hk2 hp
    have hmul : k * nP ≤ (maxAge - 1) * nP := Nat.mul_le_mul_right nP hk2
    have hmul' : (maxAge - 1) * nP = nP * (maxAge - 1) := Nat.mul_comm _ _
    have hkk : nP ≤ k * nP := Nat.le_mul_of_pos_left nP (by omega)
    have h1 : nP ≤ k * nP + p := by omega
    have h2 : k * nP + p < nP + s.numAgedInstances := by
      rw [hA]
      omega
    have hsub : (k - 1) * nP = k * nP - nP := Nat.sub_one_mul k nP
    have h3 : (k * nP + p) - nP = (k - 1) * nP + p := by omega
    show (runTransformFeedback K nP t z s).sourcePositions (k * nP + p) = _
    rw [hrun]
    simp only []
    rw [if_pos ⟨h1, h2⟩, h3]
  · intro p hp
    have h1 : ¬(nP ≤ p ∧ p < nP + s.numAgedInstances) := fun hc => absurd hc.1 (not_le.mpr hp)
    have h2 : p < s.transformVertexCount := hvc ▸ hp
    show (runTransformFeedback K nP t z s).sourcePositions p = _
    rw [hrun]
    simp only []
    rw [if_neg h1, if_pos h2]
  · show (runTransformFeedback K nP t z s).numInstances = nP * maxAge
    rw [hrun]
    exact hN
  · show (runTransformFeedback K nP t z s).numInstances = s.numInstances
    rw [hrun]

/- Concrete instances used by the witnesses. -/

/-- A concrete stand-in for one tick of the external advection kernel. -/
def demoKernel : Nat → Pos → Pos :=
  fun i p => ⟨p.x + 1, p.y + (i : ℚ), 0⟩

/-- Concrete valid props: a decoded texture, 4 particles, 3 age cohorts. -/
def demoProps : Props :=
  { image := ImageProp.texture 1
    imageUnscale := none
    bounds := ⟨-180, -90, 180, 90⟩
    numParticles := 4
    maxAge := 3
    speedFactor := 1
    color := ⟨255, 80, 0, some 255⟩
    width := 2 }

/-- The engine state right after allocation with `demoProps`. -/
def demoSetupState : EngineState :=
  setupTransformFeedback demoProps initialEngineState

/-- C1 witness: on the freshly allocated 4-particle, 3-cohort state, one tick
at time 1 moves cohort 0 slot 0 into cohort 1 slot 0. -/
theorem step_age_shift_witness :
    demoSetupState.initialized = true ∧ ((1 : ℚ) ≠ demoSetupState.previousTime) ∧
    demoSetupState.transformVertexCount = 4 ∧
    demoSetupState.numInstances = 4 * 3 ∧
    demoSetupState.numAgedInstances = 4 * (3 - 1) ∧
    (step demoKernel 4 1 0 demoSetupState).sourcePositions (1 * 4 + 0) =
      demoSetupState.sourcePositions ((1 - 1) * 4 + 0) :=
  ⟨rfl, by decide, rfl, rfl, rfl,
    (step_age_shift demoKernel 4 3 1 0 demoSetupState rfl (by decide) rfl rfl rfl).1
      1 0 (by decide) (by decide) (by decide)⟩

/-- C2: a tick whose timeline time equals `previousTime` is a complete no-op,
so calling `step` twice with the same time mutates state only on the first
call. -/
theorem step_same_time_idempotent (K : Nat → Pos → Pos) (nP : Nat) (t z : ℚ)
    (s : EngineState) :
    (t = s.previousTime → step K nP t z s = s) ∧
    step K nP t z (step K nP t z s) = step K nP t z s := by
  refine ⟨fun ht => runTF_noop_same_time K nP t z s ht, ?_⟩
  simp only [step]
  by_cases hinit : s.initialized = false
  · rw [runTF_noop_uninit K nP t z s hinit, runTF_noop_uninit K nP t z s hinit]
  · have hinit' : s.initialized = true := by
      revert hinit
      cases s.initialized <;> simp
    by_cases ht : t = s.previousTime
    · rw [runTF_noop_same_time K nP t z s ht, runTF_noop_same_time K nP t z s ht]
    · have hrun := runTF_run_eq K nP t z s hinit' ht
      have ht' : t = (step K nP t z s).previousTime := by
        show t = (runTransformFeedback K nP t z s).previousTime
        rw [hrun]
      exact runTF_noop_same_time K nP t z _ ht'

/-- C2 witness: a second tick at time 1 right after a tick at time 1 leaves
the state of the first tick unchanged. -/
theorem step_same_time_idempotent_witness :
    step demoKernel 4 1 0 (step demoKernel 4 1 0 demoSetupState) =
      step demoKernel 4 1 0 demoSetupState :=
  (step_same_time_idempotent demoKernel 4 1 0 demoSetupState).2

/-- C4: the per-tick uniforms hand the kernel
`zoomChangeFactor = 2 ^ ((zPrev - z) * 4)` (so a zoom-in `z > zPrev` gives a
factor below 1), `effectiveSpeed = speedFactor / 2 ^ (z + 7)`, and
`wrapBounds` of the current map bounds. -/
theorem tickUniforms_spec (props : Props) (s : EngineState) (vp : Viewport)
    (t seed : ℚ) :
    (tickUniforms props s vp t seed).viewportZoomChangeFactor =
      (2 : ℝ) ^ (((s.previousViewportZoom : ℝ) - (vp.zoom : ℝ)) * 4) ∧
    (s.previousViewportZoom < vp.zoom →
      (tickUniforms props s vp t seed).viewportZoomChangeFactor < 1) ∧
    (tickUniforms props s vp t seed).speedFactor =
      (props.speedFactor : ℝ) / (2 : ℝ) ^ ((vp.zoom : ℝ) + 7) ∧
    (tickUniforms props s vp t seed).viewportBounds = wrapBounds vp.bounds := by
  have hpos : (0 : ℝ) < viewportZoomChangeFactor s.previousViewportZoom vp.zoom :=
    Real.rpow_pos_of_pos (by norm_num) _
  have hfac : (tickUniforms props s vp t seed).viewportZoomChangeFactor =
      viewportZoomChangeFactor s.previousViewportZoom vp.zoom := by
    show (if viewportZoomChangeFactor s.previousViewportZoom vp.zoom = 0 then 0
        else viewportZoomChangeFactor s.previousViewportZoom vp.zoom) = _
    rw [if_neg hpos.ne']
  refine ⟨hfac, fun hz => ?_, rfl, rfl⟩
  rw [hfac]
  apply Real.rpow_lt_one_of_one_lt_of_neg (by norm_num)
  have hcast : (s.previousViewportZoom : ℝ) < (vp.zoom : ℝ) := by
    exact_mod_cast hz
  nlinarith

/-- C4 witness: with previous zoom 0 and current zoom 1 (a zoom-in), the
computed zoom-change factor is below 1 and the speed factor follows the
formula. -/
theorem tickUniforms_spec_witness :
    demoSetupState.previousViewportZoom < (1 : ℚ) ∧
    (tickUniforms demoProps demoSetupState ⟨1, ⟨-180, -90, 180, 90⟩⟩ 1 0).viewportZoomChangeFactor < 1 ∧
    (tickUniforms demoProps demoSetupState ⟨1, ⟨-180, -90, 180, 90⟩⟩ 1 0).viewportBounds =
      wrapBounds ⟨-180, -90, 180, 90⟩ :=
  ⟨by decide,
    (tickUniforms_spec demoProps demoSetupState ⟨1, ⟨-180, -90, 180, 90⟩⟩ 1 0).2.1 (by decide),
    (tickUniforms_spec demoProps demoSetupState ⟨1, ⟨-180, -90, 180, 90⟩⟩ 1 0).2.2.2⟩

/-- C5: the color buffer is fixed at allocation: entry `i` of cohort
`k = ⌊i / numParticles⌋` is `baseColor` with alpha ramp
`(alpha ?? 255) * (1 - k / maxAge)`, every channel divided by 255; no tick
recomputes it. -/
theorem colors_allocation_spec (props : Props) (s : EngineState) (tid i : Nat)
    (himg : props.image = ImageProp.texture tid)
    (_hi : i < props.numParticles * props.maxAge) :
    (setupTransformFeedback props s).colors i =
      ⟨props.color.r / 255, props.color.g / 255, props.color.b / 255,
        (props.color.a.getD 255) *
          (1 - ((i / props.numParticles : Nat) : ℚ) / (props.maxAge : ℚ)) / 255⟩ ∧
    (∀ K nP t z s', (runTransformFeedback K nP t z s').colors = s'.colors) := by
  constructor
  · show (setupTransformFeedback props s).colors i = _
    unfold setupTransformFeedback
    rw [himg]
    rfl
  · intro K nP t z s'
    unfold runTransformFeedback
    by_cases h1 : s'.initialized = false
    · rw [if_pos h1]
    · rw [if_neg h1]
      by_cases h2 : t = s'.previousTime
      · rw [if_pos h2]
      · rw [if_neg h2]

/-- C5 witness: in the 4-particle, 3-cohort allocation, entry 9 sits in
cohort 2 and carries alpha `255 * (1 - 2/3) / 255`; a tick leaves the color
buffer alone. -/
theorem colors_allocation_spec_witness :
    demoProps.image = ImageProp.texture 1 ∧ 9 < demoProps.numParticles * demoProps.maxAge ∧
    (setupTransformFeedback demoProps initialEngineState).colors 9 =
      ⟨demoProps.color.r / 255, demoProps.color.g / 255, demoProps.color.b / 255,
        (demoProps.color.a.getD 255) *
          (1 - ((9 / demoProps.numParticles : Nat) : ℚ) / (demoProps.maxAge : ℚ)) / 255⟩ ∧
    (runTransformFeedback demoKernel 4 1 0 demoSetupState).colors = demoSetupState.colors :=
  ⟨rfl, by decide,
    (colors_allocation_spec demoProps initialEngineState 1 9 rfl (by decide)).1,
    (colors_allocation_spec demoProps initialEngineState 1 9 rfl (by decide)).2
      demoKernel 4 1 0 demoSetupState⟩

/-- C6: with `numParticles = 4` and `maxAge = 3`, allocation yields 12 total
and 8 aged instances with every position slot at the `(0,0,0)` sentinel;
after one tick the new source buffer holds the kernel output in slots
`[0, 4)` and still the sentinel in slots `[4, 12)`, the copy's byte
destination offset being one 4-slot cohort. -/
theorem end_to_end_4_3 (K : Nat → Pos → Pos) (t z : ℚ) (ht : t ≠ 0) :
    demoSetupState.numInstances = 12 ∧
    demoSetupState.numAgedInstances = 8 ∧
    (∀ i < 12, demoSetupState.sourcePositions i = Pos.zero ∧
      demoSetupState.targetPositions i = Pos.zero) ∧
    (∀ p < 4, (step K 4 t z demoSetupState).sourcePositions p = K p Pos.zero) ∧
    (∀ i, 4 ≤ i → i < 12 →
      (step K 4 t z demoSetupState).sourcePositions i = Pos.zero) ∧
    copyDestinationOffsetBytes 4 = 4 * positionSizeBytes := by
  have ht' : ¬t = demoSetupState.previousTime := ht
  have hrun := runTF_run_eq K 4 t z demoSetupState rfl ht'
  refine ⟨rfl, rfl, fun i _ => ⟨rfl, rfl⟩, ?_, ?_, rfl⟩
  · intro p hp
    have h1 : ¬(4 ≤ p ∧ p < 4 + demoSetupState.numAgedInstances) :=
      fun hc => absurd hc.1 (not_le.mpr hp)
    have h2 : p < demoSetupState.transformVertexCount := hp
    show (runTransformFeedback K 4 t z demoSetupState).sourcePositions p = _
    rw [hrun]
    simp only []
    rw [if_neg h1, if_pos h2]
    rfl
  · intro i h4 h12
    have h1 : 4 ≤ i ∧ i < 4 + demoSetupState.numAgedInstances := ⟨h4, by
      show i < 4 + 8
      omega⟩
    show (runTransformFeedback K 4 t z demoSetupState).sourcePositions i = _
    rw [hrun]
    simp only []
    rw [if_pos h1]
    rfl

/-- C6 witness: with the demo kernel at time 1, slot 0 holds the kernel's
output for the sentinel and slot 7 (cohort 1) still holds the sentinel. -/
theorem end_to_end_4_3_witness :
    (1 : ℚ) ≠ 0 ∧
    (step demoKernel 4 1 0 demoSetupState).sourcePositions 0 = demoKernel 0 Pos.zero ∧
    (step demoKernel 4 1 0 demoSetupState).sourcePositions 7 = Pos.zero :=
  ⟨by decide,
    (end_to_end_4_3 demoKernel 1 0 (by decide)).2.2.2.1 0 (by decide),
    (end_to_end_4_3 demoKernel 1 0 (by decide)).2.2.2.2.1 7 (by decide) (by decide)⟩

lemma delete_not_initialized (s : EngineState) :
    (deleteTransformFeedback s).initialized = false := by
  unfold deleteTransformFeedback
  by_cases h : s.initialized = false
  · rw [if_pos h]
    exact h
  · rw [if_neg h]

lemma delete_of_not_initialized (s : EngineState) (h : s.initialized = false) :
    deleteTransformFeedback s = s := by
  unfold deleteTransformFeedback
  rw [if_pos h]

/-- C7: invalid configuration and uninitialized state never raise: a
zero/falsy `numParticles`, `maxAge` or `width` makes `updateState`
deallocate and leaves the engine uninitialized; `step` and `clear` on an
uninitialized engine are no-ops; and deallocating twice is a no-op that
leaves `initialized = false`. -/
theorem invalid_config_never_raises (props oldProps : Props) (s : EngineState)
    (K : Nat → Pos → Pos) (nP : Nat) (t z : ℚ) :
    ((props.numParticles = 0 ∨ props.maxAge = 0 ∨ props.width = 0) →
      updateState props oldProps s = deleteTransformFeedback s ∧
      (updateState props oldProps s).initialized = false) ∧
    (s.initialized = false → step K nP t z s = s ∧ clear s = s) ∧
    deleteTransformFeedback (deleteTransformFeedback s) = deleteTransformFeedback s ∧
    (deleteTransformFeedback (deleteTransformFeedback s)).initialized = false := by
  have hidem : deleteTransformFeedback (deleteTransformFeedback s) =
      deleteTransformFeedback s :=
    delete_of_not_initialized _ (delete_not_initialized s)
  refine ⟨fun hz => ?_, fun huninit => ⟨runTF_noop_uninit K nP t z s huninit, ?_⟩,
    hidem, by rw [hidem]; exact delete_not_initialized s⟩
  · have hup : updateState props oldProps s = deleteTransformFeedback s := by
      unfold updateState
      rw [if_pos hz]
    exact ⟨hup, hup ▸ delete_not_initialized s⟩
  · show resetTransformFeedback s = s
    unfold resetTransformFeedback
    rw [if_pos huninit]

/-- Concrete props invalid through a zero `numParticles`. -/
def invalidProps : Props :=
  { demoProps with numParticles := 0 }

/-- C7 witness: zero `numParticles` deallocates the demo state, and `step`
on the never-initialized fresh state is a no-op. -/
theorem invalid_config_never_raises_witness :
    (invalidProps.numParticles = 0 ∨ invalidProps.maxAge = 0 ∨ invalidProps.width = 0) ∧
    (updateState invalidProps demoProps demoSetupState).initialized = false ∧
    initialEngineState.initialized = false ∧
    step demoKernel 4 1 0 initialEngineState = initialEngineState :=
  ⟨Or.inl rfl,
    ((invalid_config_never_raises invalidProps demoProps demoSetupState
      demoKernel 4 1 0).1 (Or.inl rfl)).2,
    rfl,
    ((invalid_config_never_raises invalidProps demoProps initialEngineState
      demoKernel 4 1 0).2.1 rfl).1⟩

/-- C8: `clear` on an initialized engine zeroes every one of the
`numInstances` slots of both position buffers and changes nothing else (the
engine stays initialized; colors, width, counts, transform, previous time
and zoom, texture and the step flag are untouched); on an uninitialized
engine it is a no-op. -/
theorem clear_spec (s : EngineState) :
    (s.initialized = true →
      (∀ i, i < s.numInstances →
        (clear s).sourcePositions i = Pos.zero ∧ (clear s).targetPositions i = Pos.zero) ∧
      (clear s).initialized = true ∧
      (clear s).colors = s.colors ∧ (clear s).widths = s.widths ∧
      (clear s).numInstances = s.numInstances ∧
      (clear s).numAgedInstances = s.numAgedInstances ∧
      (clear s).transformVertexCount = s.transformVertexCount ∧
      (clear s).previousTime = s.previousTime ∧
      (clear s).previousViewportZoom = s.previousViewportZoom ∧
      (clear s).texture = s.texture ∧
      (clear s).stepRequested = s.stepRequested) ∧
    (s.initialized = false → clear s = s) := by
  constructor
  · intro hinit
    have hne : ¬s.initialized = false := by rw [hinit]; simp
    have hclear : clear s =
        { s with
          sourcePositions := fun i =>
            if i < s.numInstances then Pos.zero else s.sourcePositions i
          targetPositions := fun i =>
            if i < s.numInstances then Pos.zero else s.targetPositions i } := by
      show resetTransformFeedback s = _
      unfold resetTransformFeedback
      rw [if_neg hne]
    rw [hclear]
    refine ⟨fun i hi => ⟨?_, ?_⟩, hinit, rfl, rfl, rfl, rfl, rfl, rfl, rfl, rfl, rfl⟩
    · show (if i < s.numInstances then Pos.zero else s.sourcePositions i) = Pos.zero
      rw [if_pos hi]
    · show (if i < s.numInstances then Pos.zero else s.targetPositions i) = Pos.zero
      rw [if_pos hi]
  · intro huninit
    show resetTransformFeedback s = s
    unfold resetTransformFeedback
    rw [if_pos huninit]

/-- C8 witness: clearing the demo state after one tick zeroes slot 0 of the
source buffer, keeps the engine initialized and keeps the tick's
`previousTime`. -/
theorem clear_spec_witness :
    (step demoKernel 4 1 0 demoSetupState).initialized = true ∧
    0 < (step demoKernel 4 1 0 demoSetupState).numInstances ∧
    (clear (step demoKernel 4 1 0 demoSetupState)).sourcePositions 0 = Pos.zero ∧
    (clear (step demoKernel 4 1 0 demoSetupState)).initialized = true ∧
    (clear (step demoKernel 4 1 0 demoSetupState)).previousTime =
      (step demoKernel 4 1 0 demoSetupState).previousTime :=
  ⟨rfl, by decide,
    (((clear_spec (step demoKernel 4 1 0 demoSetupState)).1 rfl).1 0 (by decide)).1,
    ((clear_spec (step demoKernel 4 1 0 demoSetupState)).1 rfl).2.1,
    ((clear_spec (step demoKernel 4 1 0 demoSetupState)).1 rfl).2.2.2.2.2.2.2.1⟩

/-- C9: the scheduler never has more than one tick pending: `requestStep` is
a no-op while the flag is set, otherwise it sets the flag and schedules one
callback after `1000 / 30` ms; a fired callback runs `step`, clears the flag
and leaves the scheduling slot free again, and the single-pending invariant
is preserved by both operations. -/
theorem requestStep_spec (ss : SchedulerState) (K : Nat → Pos → Pos) (nP : Nat)
    (t z d : ℚ) (rest : List ℚ) :
    (ss.engine.stepRequested = true → requestStep ss = ss) ∧
    (ss.engine.stepRequested = false →
      requestStep ss =
        ⟨{ ss.engine with stepRequested := true }, ss.pending ++ [1000 / FPS]⟩) ∧
    (1000 / FPS : ℚ) = 1000 / 30 ∧
    (ss.pending = d :: rest →
      fireStep K nP t z ss =
        ⟨{ step K nP t z ss.engine with stepRequested := false }, rest⟩ ∧
      (fireStep K nP t z ss).engine.stepRequested = false) ∧
    (SchedInv ss → SchedInv (requestStep ss) ∧ SchedInv (fireStep K nP t z ss)) := by
  have hreq_true : ss.engine.stepRequested = true → requestStep ss = ss := by
    intro h
    unfold requestStep
    rw [if_pos (by rw [h])]
  have hreq_false : ss.engine.stepRequested = false → requestStep ss =
      ⟨{ ss.engine with stepRequested := true }, ss.pending ++ [1000 / FPS]⟩ := by
    intro h
    unfold requestStep
    rw [if_neg (by rw [h]; simp)]
  have hfire : ss.pending = d :: rest → fireStep K nP t z ss =
      ⟨{ step K nP t z ss.engine with stepRequested := false }, rest⟩ := by
    intro hp
    unfold fireStep
    rw [hp]
  refine ⟨hreq_true, hreq_false, rfl, fun hp => ⟨hfire hp, by rw [hfire hp]⟩, ?_⟩
  rintro ⟨hlen, hflag⟩
  constructor
  · rcases hb : ss.engine.stepRequested with _ | _
    · rw [hreq_false hb, hflag hb]
      refine ⟨by simp, fun hcontra => ?_⟩
      simp at hcontra
    · rw [hreq_true hb]
      exact ⟨hlen, hflag⟩
  · rcases hp : ss.pending with _ | ⟨d', rest'⟩
    · have : fireStep K nP t z ss = ss := by
        unfold fireStep
        rw [hp]
      rw [this]
      exact ⟨hlen, hflag⟩
    · have hrest : rest' = [] := by
        rw [hp] at hlen
        simp at hlen
        exact hlen
      have : fireStep K nP t z ss =
          ⟨{ step K nP t z ss.engine with stepRequested := false }, rest'⟩ := by
        unfold fireStep
        rw [hp]
      rw [this, hrest]
      exact ⟨by simp, fun _ => rfl⟩

/-- C9 witness: on a fresh scheduler, `requestStep` schedules exactly one
callback at `1000 / 30` ms with the flag set, preserving the invariant, and
firing it clears the flag. -/
theorem requestStep_spec_witness :
    initialEngineState.stepRequested = false ∧
    requestStep ⟨initialEngineState, []⟩ =
      ⟨{ initialEngineState with stepRequested := true }, [] ++ [1000 / FPS]⟩ ∧
    SchedInv ⟨initialEngineState, []⟩ ∧
    SchedInv (requestStep ⟨initialEngineState, []⟩) ∧
    (fireStep demoKernel 4 1 0 (requestStep ⟨initialEngineState, []⟩)).engine.stepRequested
      = false :=
  ⟨rfl,
    (requestStep_spec ⟨initialEngineState, []⟩ demoKernel 4 1 0 0 []).2.1 rfl,
    ⟨by decide, fun _ => rfl⟩,
    ((requestStep_spec ⟨initialEngineState, []⟩ demoKernel 4 1 0 0 []).2.2.2.2
      ⟨by decide, fun _ => rfl⟩).1,
    ((requestStep_spec (requestStep ⟨initialEngineState, []⟩) demoKernel 4 1 0
      (1000 / FPS) []).2.2.2.1 rfl).2⟩

/-- C10: allocation is a no-op whenever the image prop is still a URL string
or `null`: `_setupTransformFeedback` only tears down (a guard that is itself
a no-op on an uninitialized engine), so the engine stays uninitialized until
a decoded texture is supplied. -/
theorem setup_non_texture_noop (props : Props) (s : EngineState)
    (h : ∀ tid, props.image ≠ ImageProp.texture tid) :
    setupTransformFeedback props s = deleteTransformFeedback s ∧
    (setupTransformFeedback props s).initialized = false ∧
    (s.initialized = false → setupTransformFeedback props s = s) := by
  have hs1 : (if s.initialized then deleteTransformFeedback s else s) =
      deleteTransformFeedback s := by
    rcases hb : s.initialized with _ | _
    · rw [if_neg (by simp), delete_of_not_initialized s hb]
    · rw [if_pos (by trivial)]
  have hsetup : setupTransformFeedback props s = deleteTransformFeedback s := by
    unfold setupTransformFeedback
    rcases himg : props.image with u | tid | _
    · rw [hs1]
    · exact absurd himg (h tid)
    · rw [hs1]
  exact ⟨hsetup, hsetup ▸ delete_not_initialized s,
    fun huninit => hsetup.trans (delete_of_not_initialized s huninit)⟩

/-- Concrete props whose image is still an unresolved URL string. -/
def stringImageProps : Props :=
  { demoProps with image := ImageProp.url "wind.png" }

/-- C10 witness: with a URL-string image and otherwise valid parameters,
allocation on a fresh engine changes nothing and leaves it uninitialized. -/
theorem setup_non_texture_noop_witness :
    (∀ tid, stringImageProps.image ≠ ImageProp.texture tid) ∧
    (setupTransformFeedback stringImageProps initialEngineState).initialized = false ∧
    setupTransformFeedback stringImageProps initialEngineState = initialEngineState :=
  ⟨fun _ h => ImageProp.noConfusion h,
    (setup_non_texture_noop stringImageProps initialEngineState
      (fun _ h => ImageProp.noConfusion h)).2.1,
    (setup_non_texture_noop stringImageProps initialEngineState
      (fun _ h => ImageProp.noConfusion h)).2.2 rfl⟩

end DeckParticle
